import Mathlib

/-!
Verification development for the WhatsApp bulk-sender backend
(`backend/server.py`, `backend/models.py`).

The Python code is shallowly embedded: time is modelled in milliseconds
as `Nat`, the rate limiter's `message_times` dict as an association list,
the Mongo collections as Lean lists, and the external Twilio call as an
explicit outcome parameter.  Each definition mirrors one Python function.
-/

/-! ## Dictionary model (Python `dict` with string keys, list-of-timestamps values) -/

/-- `d[k]` as a fallible read, mirroring Python dict indexing. -/
def dictGet (d : List (String × List Nat)) (k : String) : Option (List Nat) :=
  match d with
  | [] => none
  | (k', v) :: rest => if k' = k then some v else dictGet rest k

/-- `d[k] = v`, replacing the binding if present, appending it otherwise. -/
def dictSet (d : List (String × List Nat)) (k : String) (v : List Nat) :
    List (String × List Nat) :=
  match d with
  | [] => [(k, v)]
  | (k', v') :: rest => if k' = k then (k, v) :: rest else (k', v') :: dictSet rest k v

theorem dictGet_dictSet_self (d : List (String × List Nat)) (k : String) (v : List Nat) :
    dictGet (dictSet d k v) k = some v := by
  induction d with
  | nil => simp [dictGet, dictSet]
  | cons p rest ih =>
    obtain ⟨k', v'⟩ := p
    by_cases h : k' = k <;> simp [dictGet, dictSet, h, ih]

/-! ## Rate limiter (`MessageRateLimiter`, server.py lines 35-57) -/

/-- State of `MessageRateLimiter`: the configured per-second cap and the
per-identity timestamp history (`self.message_times`). -/
structure RateLimiterState where
  maxMessagesPerSecond : Nat
  messageTimes : List (String × List Nat)
deriving Repr, DecidableEq

/-- The pruning filter of `check_rate_limit`: keep a timestamp `x` iff
`(now - x).total_seconds() < 1`, i.e. (in milliseconds) `now - x < 1000`. -/
def pruneWindow (now : Nat) (times : List Nat) : List Nat :=
  times.filter (fun x => now - x < 1000)

/-- `MessageRateLimiter.check_rate_limit` (server.py lines 41-57):
insert an empty history if the identity is new, prune entries at least one
second old, reject when the remaining count reaches the cap, otherwise
record `now` and admit. -/
def checkRateLimit (st : RateLimiterState) (phone : String) (now : Nat) :
    RateLimiterState × Bool :=
  let mt0 := if (dictGet st.messageTimes phone).isSome then st.messageTimes
             else dictSet st.messageTimes phone []
  let times := pruneWindow now ((dictGet mt0 phone).getD [])
  let mt1 := dictSet mt0 phone times
  if st.maxMessagesPerSecond ≤ times.length then
    ({ st with messageTimes := mt1 }, false)
  else
    ({ st with messageTimes := dictSet mt1 phone (times ++ [now]) }, true)

/-- `check_rate_limit` with every dict read kept fallible (a `none` here
would be a Python `KeyError`); used to state that the function never
raises. -/
def checkRateLimitE (st : RateLimiterState) (phone : String) (now : Nat) :
    Option (RateLimiterState × Bool) :=
  let mt0 := if (dictGet st.messageTimes phone).isSome then st.messageTimes
             else dictSet st.messageTimes phone []
  match dictGet mt0 phone with
  | none => none
  | some ts0 =>
    let times := pruneWindow now ts0
    let mt1 := dictSet mt0 phone times
    if st.maxMessagesPerSecond ≤ times.length then
      some ({ st with messageTimes := mt1 }, false)
    else
      some ({ st with messageTimes := dictSet mt1 phone (times ++ [now]) }, true)

/-- A sequence of `check_rate_limit` calls for one identity at the given
instants, returning the final state and the list of boolean results. -/
def runCalls (st : RateLimiterState) (phone : String) : List Nat → RateLimiterState × List Bool
  | [] => (st, [])
  | t :: ts =>
    let r := checkRateLimit st phone t
    let rest := runCalls r.1 phone ts
    (rest.1, r.2 :: rest.2)

/-- After the insert-if-absent step, the identity's history reads back as
the original history, defaulting to the empty list. -/
theorem dictGet_after_insert (st : RateLimiterState) (phone : String) :
    dictGet (if (dictGet st.messageTimes phone).isSome then st.messageTimes
             else dictSet st.messageTimes phone []) phone
      = some ((dictGet st.messageTimes phone).getD []) := by
  cases h : dictGet st.messageTimes phone with
  | none => simp [h, dictGet_dictSet_self]
  | some v => simp [h]

theorem checkRateLimit_false_iff (st : RateLimiterState) (phone : String) (now : Nat) :
    (checkRateLimit st phone now).2 = false ↔
      st.maxMessagesPerSecond ≤
        (pruneWindow now ((dictGet st.messageTimes phone).getD [])).length := by
  cases h : dictGet st.messageTimes phone with
  | none =>
    by_cases hm : st.maxMessagesPerSecond ≤ (pruneWindow now []).length <;>
      simp [checkRateLimit, h, dictGet_dictSet_self, hm]
  | some ts0 =>
    by_cases hm : st.maxMessagesPerSecond ≤ (pruneWindow now ts0).length <;>
      simp [checkRateLimit, h, hm]

theorem checkRateLimit_history (st : RateLimiterState) (phone : String) (now : Nat) :
    dictGet (checkRateLimit st phone now).1.messageTimes phone =
      some (if st.maxMessagesPerSecond ≤
              (pruneWindow now ((dictGet st.messageTimes phone).getD [])).length
            then pruneWindow now ((dictGet st.messageTimes phone).getD [])
            else pruneWindow now ((dictGet st.messageTimes phone).getD []) ++ [now]) := by
  cases h : dictGet st.messageTimes phone with
  | none =>
    by_cases hm : st.maxMessagesPerSecond ≤ (pruneWindow now []).length <;>
      simp [checkRateLimit, h, dictGet_dictSet_self, hm]
  | some ts0 =>
    by_cases hm : st.maxMessagesPerSecond ≤ (pruneWindow now ts0).length <;>
      simp [checkRateLimit, h, dictGet_dictSet_self, hm]

theorem checkRateLimit_max (st : RateLimiterState) (phone : String) (now : Nat) :
    (checkRateLimit st phone now).1.maxMessagesPerSecond = st.maxMessagesPerSecond := by
  cases h : dictGet st.messageTimes phone with
  | none =>
    by_cases hm : st.maxMessagesPerSecond ≤ (pruneWindow now []).length <;>
      simp [checkRateLimit, h, dictGet_dictSet_self, hm]
  | some ts0 =>
    by_cases hm : st.maxMessagesPerSecond ≤ (pruneWindow now ts0).length <;>
      simp [checkRateLimit, h, hm]

/-- The fallible-read model always returns a value, and agrees with the
total function: `check_rate_limit` never raises. -/
theorem checkRateLimitE_eq (st : RateLimiterState) (phone : String) (now : Nat) :
    checkRateLimitE st phone now = some (checkRateLimit st phone now) := by
  cases h : dictGet st.messageTimes phone with
  | none =>
    simp only [checkRateLimitE, checkRateLimit, h, dictGet_dictSet_self, Option.isSome_none,
      Bool.false_eq_true, if_false, Option.getD_some, Option.getD_none]
    split <;> rfl
  | some ts0 =>
    simp only [checkRateLimitE, checkRateLimit, h, Option.isSome_some, if_true,
      Option.getD_some]
    split <;> rfl

theorem runCalls_length (phone : String) (ts : List Nat) (st : RateLimiterState) :
    (runCalls st phone ts).2.length = ts.length := by
  induction ts generalizing st with
  | nil => simp [runCalls]
  | cons t rest ih => simp [runCalls, ih]

theorem count_bool_split (l : List Bool) : l.count false + l.count true = l.length := by
  induction l with
  | nil => simp
  | cons b rest ih =>
    cases b <;> simp [List.count_cons, ih] <;> omega

/-- Counting the admissions of a run: starting from a history `h` for the
identity, if no timestamp ever ages out during the run (every call instant
is within the window of every history entry and of every other call), the
number of admitted calls is `min ts.length (max - h.length)`. -/
theorem runCalls_count_true (phone : String) (ts : List Nat) :
    ∀ (st : RateLimiterState) (h : List Nat),
      (dictGet st.messageTimes phone).getD [] = h →
      (∀ t ∈ ts, ∀ x ∈ h, t - x < 1000) →
      (∀ a ∈ ts, ∀ b ∈ ts, a - b < 1000) →
      (runCalls st phone ts).2.count true =
        min ts.length (st.maxMessagesPerSecond - h.length) := by
  induction ts with
  | nil => intro st h _ _ _; simp [runCalls]
  | cons t rest ih =>
    intro st h hlook hnp hpw
    have hpruned : pruneWindow t h = h := by
      rw [pruneWindow, List.filter_eq_self]
      intro x hx
      simpa using hnp t (by simp) x hx
    have hhist := checkRateLimit_history st phone t
    have hmax := checkRateLimit_max st phone t
    rw [hlook, hpruned] at hhist
    by_cases hm : st.maxMessagesPerSecond ≤ h.length
    · -- rejected: history unchanged, capacity already exhausted
      have hb : (checkRateLimit st phone t).2 = false := by
        rw [checkRateLimit_false_iff, hlook, hpruned]; exact hm
      rw [if_pos hm] at hhist
      have hrest := ih (checkRateLimit st phone t).1 h (by rw [hhist]; rfl)
        (fun t' ht' x hx => hnp t' (by simp [ht']) x hx)
        (fun a ha b hb' => hpw a (by simp [ha]) b (by simp [hb']))
      rw [hmax] at hrest
      simp only [runCalls, hb]
      rw [List.count_cons_of_ne (by simp), hrest]
      simp only [List.length_cons]
      omega
    · -- admitted: the call instant is appended to the history
      push_neg at hm
      have hb : (checkRateLimit st phone t).2 = true := by
        cases hb2 : (checkRateLimit st phone t).2 with
        | false =>
          rw [checkRateLimit_false_iff, hlook, hpruned] at hb2
          omega
        | true => rfl
      rw [if_neg (by omega)] at hhist
      have hrest := ih (checkRateLimit st phone t).1 (h ++ [t]) (by rw [hhist]; rfl)
        (by
          intro t' ht' x hx
          rcases List.mem_append.mp hx with hx | hx
          · exact hnp t' (by simp [ht']) x hx
          · have hxt : x = t := by simpa using hx
            rw [hxt]
            exact hpw t' (by simp [ht']) t (by simp))
        (fun a ha b hb' => hpw a (by simp [ha]) b (by simp [hb']))
      rw [hmax] at hrest
      simp only [List.length_append, List.length_singleton] at hrest
      simp only [runCalls, hb]
      rw [List.count_cons_self, hrest]
      simp only [List.length_cons]
      omega

/-! ## Provider send adapter (`send_twilio_message`, server.py lines 104-137) -/

/-- Outcome of the external `twilio_client.messages.create` call: either a
created message (sid and provider status) or a raised exception. -/
inductive ProviderCall where
  | ok (sid : String) (status : String)
  | exn (e : String)
deriving Repr, DecidableEq

/-- The dict returned by `send_twilio_message`: `{"success": ..,
"message_id": .., "status": ..}` on success, `{"success": .., "error": ..}`
on a caught provider exception. -/
structure SendDict where
  success : Bool
  messageId : Option String
  status : Option String
  error : Option String
deriving Repr, DecidableEq

/-- The `try/except` body of `send_twilio_message`: a provider exception is
caught and converted into a failure dict. -/
def normalizeResult : ProviderCall → SendDict
  | .ok sid status => ⟨true, some sid, some status, none⟩
  | .exn e => ⟨false, none, none, some e⟩

/-- Result of a `send_twilio_message` call: either the `HTTPException`
raised when no Twilio client is configured, or the returned dict. -/
inductive AdapterResult where
  | notConfigured
  | ok (d : SendDict)
deriving Repr, DecidableEq

/-- A full `send_twilio_message` call: its result, the rate-limiter state
it leaves behind, and the back-off sleep it performed (in milliseconds). -/
structure AdapterRun where
  result : AdapterResult
  limiter : RateLimiterState
  backoffMs : Nat
deriving Repr, DecidableEq

/-- `send_twilio_message` (server.py lines 104-137): raise if the client is
unconfigured; otherwise consult the rate limiter (sleeping 500ms on
rejection but proceeding regardless) and dispatch, normalizing the
provider outcome into a dict. -/
def sendTwilioMessage (configured : Bool) (st : RateLimiterState) (sender : String)
    (now : Nat) (pc : ProviderCall) : AdapterRun :=
  if configured = false then ⟨.notConfigured, st, 0⟩
  else
    let r := checkRateLimit st sender now
    ⟨.ok (normalizeResult pc), r.1, if r.2 then 0 else 500⟩

/-! ## Bulk campaign dispatcher (`send_bulk_messages`, server.py lines 391-467) -/

/-- What one iteration of the bulk loop observes from its
`send_twilio_message` call: either a returned dict (summarized by its
`success`, `message_id` and `error` entries) or a raised exception caught
by the per-recipient `except` clause. -/
inductive CallOutcome where
  | result (success : Bool) (messageId : Option String) (error : Option String)
  | raised (e : String)
deriving Repr, DecidableEq

/-- View of an adapter result as seen by the bulk loop: `notConfigured`
propagates as a raised `HTTPException`, a returned dict is read back. -/
def CallOutcome.ofAdapter : AdapterResult → CallOutcome
  | .notConfigured =>
      .raised "Twilio not configured. Please add credentials in settings."
  | .ok d => .result d.success d.messageId d.error

/-- A document of the `messages` collection as inserted by the bulk loop. -/
structure MessageRec where
  recipientPhone : String
  messageBody : String
  status : String
  providerMessageId : Option String
  sentAt : Option Nat
  campaignId : String
  errorMessage : Option String
deriving Repr, DecidableEq

/-- A document of the `campaigns` collection (the fields the dispatcher
touches). -/
structure CampaignRec where
  id : String
  totalRecipients : Nat
  successfulSends : Nat
  failedSends : Nat
  status : String
deriving Repr, DecidableEq

/-- One iteration of the bulk loop body (server.py lines 420-447):
the successful/failed increments and the Message documents inserted.  When
the adapter call raises, the `except` clause only counts a failure — no
document is inserted. -/
def bulkProcessOne (cid : String) (now : Nat) (body : String) (recipient : String) :
    CallOutcome → Nat × Nat × List MessageRec
  | .raised _ => (0, 1, [])
  | .result success mid err =>
      (if success then 1 else 0,
       if success then 0 else 1,
       [{ recipientPhone := recipient,
          messageBody := body,
          status := if success then "sent" else "failed",
          providerMessageId := mid,
          sentAt := if success then some now else none,
          campaignId := cid,
          errorMessage := if success then none else err }])

/-- The bulk loop over the recipient list, each recipient paired with the
outcome its adapter call produces; returns the in-memory counters and the
inserted Message documents in iteration order. -/
def bulkLoop (cid : String) (now : Nat) (body : String) :
    List (String × CallOutcome) → Nat × Nat × List MessageRec
  | [] => (0, 0, [])
  | (r, out) :: rest =>
    let step := bulkProcessOne cid now body r out
    let acc := bulkLoop cid now body rest
    (step.1 + acc.1, step.2.1 + acc.2.1, step.2.2 ++ acc.2.2)

/-- The response body of the bulk endpoint. -/
structure BulkResponse where
  success : Bool
  campaignId : String
  totalRecipients : Nat
  successful : Nat
  failed : Nat
deriving Repr, DecidableEq

/-- Everything `send_bulk_messages` persists and returns: the campaign
document as first inserted, the campaign document after the final
`update_one`, the inserted Message documents, and the HTTP response. -/
structure BulkRun where
  initial : CampaignRec
  final : CampaignRec
  messages : List MessageRec
  response : BulkResponse
deriving Repr, DecidableEq

/-- `send_bulk_messages` (server.py lines 391-467): insert the campaign
with status `sending` and zeroed counters, run the loop, then update the
campaign with the final counters and status `completed`, and return a
success response carrying the counts. -/
def sendBulkMessages (cid : String) (now : Nat) (body : String)
    (items : List (String × CallOutcome)) : BulkRun :=
  let initial : CampaignRec :=
    { id := cid, totalRecipients := items.length,
      successfulSends := 0, failedSends := 0, status := "sending" }
  let acc := bulkLoop cid now body items
  let updated : CampaignRec :=
    { id := cid, totalRecipients := items.length,
      successfulSends := acc.1, failedSends := acc.2.1, status := "completed" }
  { initial := initial,
    final := updated,
    messages := acc.2.2,
    response := { success := true, campaignId := cid, totalRecipients := items.length,
                  successful := acc.1, failed := acc.2.1 } }

/-! ## Reporting endpoints (server.py lines 328-354 and 501-522) -/

/-- A stored message document as seen by the reporting queries: its status
string and its (optional) owning campaign id. -/
structure MsgDoc where
  status : String
  campaignId : Option String
deriving Repr, DecidableEq

/-- `db.messages.count_documents({"status": s})`. -/
def countWithStatus (msgs : List MsgDoc) (s : String) : Nat :=
  (msgs.filter (fun m => m.status = s)).length

/-- The delivery rate of `get_campaign_status` (server.py lines 328-354):
group the campaign's messages by status, count `delivered` plus `read`,
divide by the total and scale to a percentage; `0` when there are no
messages. -/
def campaignDeliveryRate (msgs : List MsgDoc) (cid : String) : ℚ :=
  let cmsgs := msgs.filter (fun m => m.campaignId = some cid)
  let total := cmsgs.length
  let deliveredCount := countWithStatus cmsgs "delivered" + countWithStatus cmsgs "read"
  if 0 < total then (deliveredCount : ℚ) / (total : ℚ) * 100 else 0

/-- The delivery rate of `get_dashboard_stats` (server.py lines 501-522):
`delivered_count / total_messages * 100`, where `delivered_count` counts
only the status `delivered`; `0` when there are no messages. -/
def dashboardDeliveryRate (msgs : List MsgDoc) : ℚ :=
  let total := msgs.length
  let deliveredCount := countWithStatus msgs "delivered"
  if 0 < total then (deliveredCount : ℚ) / (total : ℚ) * 100 else 0

/-- The spec's delivery-rate formula, written from its words: delivery
rate = (delivered + read) / total × 100, zero when total is zero. -/
def specDeliveryRate (delivered readCount total : Nat) : ℚ :=
  if total = 0 then 0 else ((delivered : ℚ) + (readCount : ℚ)) / (total : ℚ) * 100

/-! ## Status webhook (`twilio_status_webhook`, server.py lines 525-559) -/

/-- A stored message document as seen by the webhook handler. -/
structure StoredMessage where
  providerMessageId : Option String
  status : Option String
  deliveredAt : Option Nat
  readAt : Option Nat
  errorCode : Option String
deriving Repr, DecidableEq

/-- The form fields the handler reads (`body.get(..)`, absent keys give
`None`). -/
structure WebhookPayload where
  messageSid : Option String
  messageStatus : Option String
  errorCode : Option String
deriving Repr, DecidableEq

/-- The `update_fields` patch built by the handler (server.py lines
537-546): always overwrite `status` with the payload's status, then set
the timestamp or error field selected by that status. -/
def applyUpdateFields (now : Nat) (p : WebhookPayload) (m : StoredMessage) : StoredMessage :=
  let m1 := { m with status := p.messageStatus }
  if p.messageStatus = some "delivered" then { m1 with deliveredAt := some now }
  else if p.messageStatus = some "read" then { m1 with readAt := some now }
  else if p.messageStatus = some "failed" ∨ p.messageStatus = some "undelivered" then
    { m1 with errorCode := p.errorCode }
  else m1

/-- Mongo `update_one`: patch the first document matching the filter,
leave everything else unchanged (no match: no document altered). -/
def updateOne (f : StoredMessage → StoredMessage) (sid : Option String) :
    List StoredMessage → List StoredMessage
  | [] => []
  | m :: rest =>
    if m.providerMessageId = sid then f m :: rest
    else m :: updateOne f sid rest

/-- The webhook's HTTP answer: FastAPI returns both dict bodies with
status code 200. -/
structure WebhookResponse where
  httpStatus : Nat
  errorDetail : Option String
deriving Repr, DecidableEq

/-- `twilio_status_webhook` (server.py lines 525-559): parse the form
(modelled as an `Except` since `request.form()` may fault), update the
matching message, and acknowledge; any exception is caught and answered
with a 200 whose body carries the error detail. -/
def twilioStatusWebhook (db : List StoredMessage) (form : Except String WebhookPayload)
    (now : Nat) : List StoredMessage × WebhookResponse :=
  match form with
  | .error e => (db, ⟨200, some e⟩)
  | .ok p => (updateOne (applyUpdateFields now p) p.messageSid db, ⟨200, none⟩)

/-- The message-status values enumerated by `MessageStatus`
(models.py lines 6-12). -/
def messageStatusValues : List String :=
  ["queued", "sent", "delivered", "read", "failed", "undelivered"]

/-! ## Bulk-loop accounting lemmas -/

/-- Did the adapter call raise? -/
def CallOutcome.isRaised : CallOutcome → Bool
  | .raised _ => true
  | _ => false

/-- Did the adapter return a success dict? -/
def CallOutcome.isSuccess : CallOutcome → Bool
  | .result true _ _ => true
  | _ => false

/-- Did the adapter return a failure dict (as opposed to raising)? -/
def CallOutcome.isFailureResult : CallOutcome → Bool
  | .result false _ _ => true
  | _ => false

theorem bulkLoop_succ_count (cid : String) (now : Nat) (body : String)
    (items : List (String × CallOutcome)) :
    (bulkLoop cid now body items).1 =
      (items.filter (fun p => p.2.isSuccess)).length := by
  induction items with
  | nil => simp [bulkLoop]
  | cons p rest ih =>
    obtain ⟨r, out⟩ := p
    cases out with
    | raised e => simp [bulkLoop, bulkProcessOne, CallOutcome.isSuccess, ih]
    | result success mid err =>
      cases success <;>
        simp [bulkLoop, bulkProcessOne, CallOutcome.isSuccess, ih] <;> omega

theorem bulkLoop_fail_count (cid : String) (now : Nat) (body : String)
    (items : List (String × CallOutcome)) :
    (bulkLoop cid now body items).2.1 =
      (items.filter (fun p => p.2.isSuccess = false)).length := by
  induction items with
  | nil => simp [bulkLoop]
  | cons p rest ih =>
    obtain ⟨r, out⟩ := p
    cases out with
    | raised e =>
      simp [bulkLoop, bulkProcessOne, CallOutcome.isSuccess, ih]
      omega
    | result success mid err =>
      cases success <;>
        simp [bulkLoop, bulkProcessOne, CallOutcome.isSuccess, ih] <;> omega

/-- Every iteration settles exactly one recipient: the two counters sum to
the number of recipients processed. -/
theorem bulkLoop_counter_sum (cid : String) (now : Nat) (body : String)
    (items : List (String × CallOutcome)) :
    (bulkLoop cid now body items).1 + (bulkLoop cid now body items).2.1 =
      items.length := by
  induction items with
  | nil => simp [bulkLoop]
  | cons p rest ih =>
    obtain ⟨r, out⟩ := p
    cases out with
    | raised e =>
      simp [bulkLoop, bulkProcessOne]
      omega
    | result success mid err =>
      cases success <;>
        (simp [bulkLoop, bulkProcessOne]
         omega)

/-- The inserted Message documents correspond, in iteration order, exactly
to the recipients whose adapter call did not raise. -/
theorem bulkLoop_msgs_recipients (cid : String) (now : Nat) (body : String)
    (items : List (String × CallOutcome)) :
    (bulkLoop cid now body items).2.2.map (fun m => m.recipientPhone) =
      (items.filter (fun p => p.2.isRaised = false)).map Prod.fst := by
  induction items with
  | nil => simp [bulkLoop]
  | cons p rest ih =>
    obtain ⟨r, out⟩ := p
    cases out with
    | raised e => simp [bulkLoop, bulkProcessOne, CallOutcome.isRaised, ih]
    | result success mid err =>
      cases success <;>
        simp [bulkLoop, bulkProcessOne, CallOutcome.isRaised, ih]

theorem bulkLoop_msgs_sent_count (cid : String) (now : Nat) (body : String)
    (items : List (String × CallOutcome)) :
    ((bulkLoop cid now body items).2.2.filter (fun m => m.status = "sent")).length =
      (items.filter (fun p => p.2.isSuccess)).length := by
  induction items with
  | nil => simp [bulkLoop]
  | cons p rest ih =>
    obtain ⟨r, out⟩ := p
    cases out with
    | raised e => simp [bulkLoop, bulkProcessOne, CallOutcome.isSuccess, ih]
    | result success mid err =>
      cases success <;>
        simp [bulkLoop, bulkProcessOne, CallOutcome.isSuccess, ih]

theorem bulkLoop_msgs_failed_count (cid : String) (now : Nat) (body : String)
    (items : List (String × CallOutcome)) :
    ((bulkLoop cid now body items).2.2.filter (fun m => m.status = "failed")).length =
      (items.filter (fun p => p.2.isFailureResult)).length := by
  induction items with
  | nil => simp [bulkLoop]
  | cons p rest ih =>
    obtain ⟨r, out⟩ := p
    cases out with
    | raised e => simp [bulkLoop, bulkProcessOne, CallOutcome.isFailureResult, ih]
    | result success mid err =>
      cases success <;>
        simp [bulkLoop, bulkProcessOne, CallOutcome.isFailureResult, ih]

/-! ## Claim theorems -/

theorem length_filter_not_split {α : Type} (l : List α) (p : α → Bool) :
    (l.filter p).length + (l.filter (fun a => p a = false)).length = l.length := by
  induction l with
  | nil => rfl
  | cons a rest ih =>
    cases ha : p a
    · rw [List.filter_cons, List.filter_cons]
      rw [if_neg (by simp [ha]), if_pos (by simp [ha])]
      simp only [List.length_cons]
      omega
    · rw [List.filter_cons, List.filter_cons]
      rw [if_pos (by simp [ha]), if_neg (by simp [ha])]
      simp only [List.length_cons]
      omega

theorem length_filter_map_pair {α : Type} (l : List α) (g : α → String × CallOutcome)
    (p : String × CallOutcome → Bool) :
    ((l.map g).filter p).length = (l.filter (fun r => p (g r))).length := by
  induction l with
  | nil => simp
  | cons r rest ih => by_cases h : p (g r) <;> simp [h, ih]

/-- The per-recipient outcome list modelling an adapter that returns a
failure dict exactly on the subset `F` and a success dict elsewhere. -/
def subsetOutcomes (recipients : List String) (F : String → Bool) (mid err : String) :
    List (String × CallOutcome) :=
  recipients.map (fun r =>
    (r, if F r then CallOutcome.result false none (some err)
        else CallOutcome.result true (some mid) none))

/-- C1: for a bulk-send over recipients `R` whose adapter fails (with a
Failure result) exactly on the subset `F` and succeeds elsewhere, the run
inserts exactly `|F|` Message documents with status `failed` and `R - |F|`
with status `sent`, and the final campaign document carries
`successful_sends = R - |F|`, `failed_sends = |F|`, status `completed` and
`total_recipients = R`. -/
theorem bulk_send_subset_accounting (cid : String) (now : Nat) (body : String)
    (recipients : List String) (F : String → Bool) (mid err : String) :
    ((sendBulkMessages cid now body (subsetOutcomes recipients F mid err)).messages.filter
        (fun m => m.status = "failed")).length = (recipients.filter F).length ∧
    ((sendBulkMessages cid now body (subsetOutcomes recipients F mid err)).messages.filter
        (fun m => m.status = "sent")).length =
      (recipients.filter (fun r => F r = false)).length ∧
    (sendBulkMessages cid now body (subsetOutcomes recipients F mid err)).final.successfulSends =
      (recipients.filter (fun r => F r = false)).length ∧
    (sendBulkMessages cid now body (subsetOutcomes recipients F mid err)).final.failedSends =
      (recipients.filter F).length ∧
    (sendBulkMessages cid now body (subsetOutcomes recipients F mid err)).final.status =
      "completed" ∧
    (sendBulkMessages cid now body (subsetOutcomes recipients F mid err)).final.totalRecipients =
      recipients.length ∧
    (sendBulkMessages cid now body (subsetOutcomes recipients F mid err)).final.successfulSends =
      recipients.length - (recipients.filter F).length ∧
    ((sendBulkMessages cid now body (subsetOutcomes recipients F mid err)).messages.filter
        (fun m => m.status = "sent")).length =
      recipients.length - (recipients.filter F).length := by
  have hsplit := length_filter_not_split recipients F
  have hfail : ∀ r : String,
      CallOutcome.isFailureResult (if F r then CallOutcome.result false none (some err)
        else CallOutcome.result true (some mid) none) = F r := by
    intro r
    by_cases h : F r <;> simp [h, CallOutcome.isFailureResult]
  have hsucc : ∀ r : String,
      CallOutcome.isSuccess (if F r then CallOutcome.result false none (some err)
        else CallOutcome.result true (some mid) none) = (F r = false) := by
    intro r
    by_cases h : F r <;> simp [h, CallOutcome.isSuccess]
  refine ⟨?fail, ?sent, ?succ, ?failc, rfl, ?tot, ?succ2, ?sent2⟩
  · show ((bulkLoop cid now body (subsetOutcomes recipients F mid err)).2.2.filter
        (fun m => m.status = "failed")).length = _
    rw [bulkLoop_msgs_failed_count, subsetOutcomes, length_filter_map_pair]
    congr 1
    apply List.filter_congr
    intro r _
    simpa using hfail r
  · show ((bulkLoop cid now body (subsetOutcomes recipients F mid err)).2.2.filter
        (fun m => m.status = "sent")).length = _
    rw [bulkLoop_msgs_sent_count, subsetOutcomes, length_filter_map_pair]
    congr 1
    apply List.filter_congr
    intro r _
    simpa using hsucc r
  · show (bulkLoop cid now body (subsetOutcomes recipients F mid err)).1 = _
    rw [bulkLoop_succ_count, subsetOutcomes, length_filter_map_pair]
    congr 1
    apply List.filter_congr
    intro r _
    simpa using hsucc r
  · show (bulkLoop cid now body (subsetOutcomes recipients F mid err)).2.1 = _
    rw [bulkLoop_fail_count, subsetOutcomes, length_filter_map_pair]
    congr 1
    apply List.filter_congr
    intro r _
    by_cases h : F r <;> simp [h, CallOutcome.isSuccess]
  case tot =>
    show (subsetOutcomes recipients F mid err).length = recipients.length
    simp [subsetOutcomes]
  case succ2 =>
    show (bulkLoop cid now body (subsetOutcomes recipients F mid err)).1 = _
    rw [bulkLoop_succ_count, subsetOutcomes, length_filter_map_pair]
    have : (recipients.filter (fun r =>
        CallOutcome.isSuccess (if F r then CallOutcome.result false none (some err)
          else CallOutcome.result true (some mid) none))).length =
        (recipients.filter (fun r => F r = false)).length := by
      congr 1
      apply List.filter_congr
      intro r _
      simpa using hsucc r
    rw [this]
    omega
  case sent2 =>
    show ((bulkLoop cid now body (subsetOutcomes recipients F mid err)).2.2.filter
        (fun m => m.status = "sent")).length = _
    rw [bulkLoop_msgs_sent_count, subsetOutcomes, length_filter_map_pair]
    have : (recipients.filter (fun r =>
        CallOutcome.isSuccess (if F r then CallOutcome.result false none (some err)
          else CallOutcome.result true (some mid) none))).length =
        (recipients.filter (fun r => F r = false)).length := by
      congr 1
      apply List.filter_congr
      intro r _
      simpa using hsucc r
    rw [this]
    omega

/-- C3 counterexample: with two recipients, where the adapter raises for
the first and returns a success dict for the second, the run inserts only
one Message document — not one per recipient — while still counting the
first as failed and continuing the loop. -/
theorem bulk_raised_call_drops_record :
    (sendBulkMessages "c" 0 "hi"
        [("a", CallOutcome.raised "boom"),
         ("b", CallOutcome.result true (some "SM1") none)]).messages.length = 1 ∧
    (sendBulkMessages "c" 0 "hi"
        [("a", CallOutcome.raised "boom"),
         ("b", CallOutcome.result true (some "SM1") none)]).final.failedSends = 1 ∧
    (sendBulkMessages "c" 0 "hi"
        [("a", CallOutcome.raised "boom"),
         ("b", CallOutcome.result true (some "SM1") none)]).final.successfulSends = 1 :=
  ⟨rfl, rfl, rfl⟩

/-- C3 (amended): the bulk loop inserts exactly one Message document per
recipient whose adapter call returns a dict (success or failure), in
iteration order, with no retries; a recipient whose adapter call raises is
counted as a failure and does not abort the remaining iterations, but no
Message document is inserted for it. -/
theorem bulk_one_record_per_returning_recipient (cid : String) (now : Nat) (body : String)
    (items : List (String × CallOutcome)) :
    (sendBulkMessages cid now body items).messages.map (fun m => m.recipientPhone) =
      (items.filter (fun p => p.2.isRaised = false)).map Prod.fst ∧
    (sendBulkMessages cid now body items).final.successfulSends +
        (sendBulkMessages cid now body items).final.failedSends = items.length ∧
    (sendBulkMessages cid now body items).final.failedSends =
      (items.filter (fun p => p.2.isSuccess = false)).length :=
  ⟨bulkLoop_msgs_recipients cid now body items,
   bulkLoop_counter_sum cid now body items,
   bulkLoop_fail_count cid now body items⟩

/-- C5: during dispatch the in-memory counters after any prefix of the
loop sum to at most the recipient count; the campaign document is created
with `total_recipients` equal to the recipient-list length and zeroed
counters, and the loop's only terminal campaign status is `completed` —
never `failed` — whatever the per-recipient outcomes are. -/
theorem campaign_counter_invariant (cid : String) (now : Nat) (body : String)
    (items : List (String × CallOutcome)) :
    (∀ k : Nat,
       (bulkLoop cid now body (items.take k)).1 +
         (bulkLoop cid now body (items.take k)).2.1 ≤ items.length) ∧
    (sendBulkMessages cid now body items).initial.totalRecipients = items.length ∧
    (sendBulkMessages cid now body items).initial.successfulSends = 0 ∧
    (sendBulkMessages cid now body items).initial.failedSends = 0 ∧
    (sendBulkMessages cid now body items).final.successfulSends +
        (sendBulkMessages cid now body items).final.failedSends = items.length ∧
    (sendBulkMessages cid now body items).final.status = "completed" ∧
    (sendBulkMessages cid now body items).final.status ≠ "failed" := by
  refine ⟨?_, rfl, rfl, rfl, bulkLoop_counter_sum cid now body items, rfl, ?_⟩
  · intro k
    rw [bulkLoop_counter_sum cid now body (items.take k)]
    simp [List.length_take_le k items]
  · show ("completed" : String) ≠ "failed"
    decide

/-- C2 counterexample: with the configured maximum set to 0, a call made
more than one second after all prior calls for the identity is rejected,
not admitted; and with maximum 1 and a history entry aged exactly one
second, the call is admitted because the code prunes entries at least one
second old, not only those strictly older than one second. -/
theorem rate_limiter_claim_counterexample :
    (runCalls ⟨0, []⟩ "X" [0, 2000]).2 = [false, false] ∧
    (checkRateLimit ⟨1, [("X", [0])]⟩ "X" 1000).2 = true :=
  ⟨rfl, rfl⟩

/-- C2 (amended): each `check_rate_limit` call prunes the identity's
timestamps at least one second old, rejects iff the remaining count
reaches the configured maximum, and otherwise appends the call instant and
admits; for any number of calls all lying within one second of each other,
starting fresh, with more calls than the maximum, exactly `max` calls are
admitted and the rest rejected; and — provided the configured maximum is
at least 1 — a call more than one second after all recorded instants for
the identity is admitted even if the prior window was full. -/
theorem rate_limiter_admission (maxN : Nat) (phone : String) :
    (∀ (st : RateLimiterState) (t : Nat),
       ((checkRateLimit st phone t).2 = false ↔
          st.maxMessagesPerSecond ≤
            (pruneWindow t ((dictGet st.messageTimes phone).getD [])).length) ∧
       dictGet (checkRateLimit st phone t).1.messageTimes phone =
         some (if st.maxMessagesPerSecond ≤
                 (pruneWindow t ((dictGet st.messageTimes phone).getD [])).length
               then pruneWindow t ((dictGet st.messageTimes phone).getD [])
               else pruneWindow t ((dictGet st.messageTimes phone).getD []) ++ [t])) ∧
    (∀ ts : List Nat,
       (∀ a ∈ ts, ∀ b ∈ ts, a - b < 1000) →
       maxN < ts.length →
       (runCalls ⟨maxN, []⟩ phone ts).2.count true = maxN ∧
       (runCalls ⟨maxN, []⟩ phone ts).2.count false = ts.length - maxN) ∧
    (∀ (st : RateLimiterState) (t : Nat),
       1 ≤ st.maxMessagesPerSecond →
       (∀ x ∈ (dictGet st.messageTimes phone).getD [], 1000 < t - x) →
       (checkRateLimit st phone t).2 = true) := by
  refine ⟨fun st t => ⟨checkRateLimit_false_iff st phone t, checkRateLimit_history st phone t⟩,
          ?_, ?_⟩
  · intro ts hpw hlen
    have hcount := runCalls_count_true phone ts ⟨maxN, []⟩ [] rfl
      (by intro t _ x hx; simp at hx) hpw
    simp only [List.length_nil, Nat.sub_zero] at hcount
    have hcount' : (runCalls ⟨maxN, []⟩ phone ts).2.count true = maxN := by
      rw [hcount]
      omega
    refine ⟨hcount', ?_⟩
    have hsplit := count_bool_split (runCalls ⟨maxN, []⟩ phone ts).2
    rw [runCalls_length, hcount'] at hsplit
    omega
  · intro st t hmax hold
    have hnil : pruneWindow t ((dictGet st.messageTimes phone).getD []) = [] := by
      rw [pruneWindow, List.filter_eq_nil_iff]
      intro x hx
      have := hold x hx
      simp
      omega
    cases hb : (checkRateLimit st phone t).2 with
    | false =>
      rw [checkRateLimit_false_iff, hnil] at hb
      simp at hb
      omega
    | true => rfl

/-- Witness for C2 (amended), at the spec's own scenario: maximum 2,
identity "X", calls at 0ms, 100ms, 200ms give two admissions and one
rejection; a later call at 1300ms against the full window [0, 100, 200]
is admitted. -/
theorem rate_limiter_admission_witness :
    (runCalls ⟨2, []⟩ "X" [0, 100, 200]).2.count true = 2 ∧
    (runCalls ⟨2, []⟩ "X" [0, 100, 200]).2.count false = 1 ∧
    (checkRateLimit ⟨2, [("X", [0, 100, 200])]⟩ "X" 1300).2 = true :=
  ⟨((rate_limiter_admission 2 "X").2.1 [0, 100, 200] (by decide) (by decide)).1,
   ((rate_limiter_admission 2 "X").2.1 [0, 100, 200] (by decide) (by decide)).2,
   (rate_limiter_admission 2 "X").2.2 ⟨2, [("X", [0, 100, 200])]⟩ 1300 (by decide) (by decide)⟩

/-- C7 counterexample: with the configured maximum set to 0 — a legal
integer configuration — the very first call for a brand-new identity is
rejected. -/
theorem new_identity_maxzero_rejected :
    dictGet (RateLimiterState.mk 0 []).messageTimes "Y" = none ∧
    (checkRateLimit ⟨0, []⟩ "Y" 5).2 = false :=
  ⟨rfl, rfl⟩

/-- C7 (amended): for every configured maximum of at least 1, the first
`check_rate_limit` call for a brand-new identity (no prior history) is
admitted. -/
theorem new_identity_first_call_admitted (st : RateLimiterState) (phone : String) (t : Nat)
    (hfresh : dictGet st.messageTimes phone = none)
    (hmax : 1 ≤ st.maxMessagesPerSecond) :
    (checkRateLimit st phone t).2 = true := by
  cases hb : (checkRateLimit st phone t).2 with
  | false =>
    rw [checkRateLimit_false_iff, hfresh] at hb
    simp [pruneWindow] at hb
    omega
  | true => rfl

/-- Witness for C7 (amended): the default configuration (max 80) admits the
first call of a fresh identity. -/
theorem new_identity_first_call_admitted_witness :
    dictGet (RateLimiterState.mk 80 []).messageTimes "+15551234567" = none ∧
    1 ≤ (RateLimiterState.mk 80 []).maxMessagesPerSecond ∧
    (checkRateLimit ⟨80, []⟩ "+15551234567" 0).2 = true :=
  ⟨rfl, by decide,
   new_identity_first_call_admitted ⟨80, []⟩ "+15551234567" 0 rfl (by decide)⟩

theorem bulkLoop_all_raised (cid : String) (now : Nat) (body : String) (e : String)
    (recipients : List String) :
    bulkLoop cid now body (recipients.map (fun r => (r, CallOutcome.raised e))) =
      (0, recipients.length, []) := by
  induction recipients with
  | nil => simp [bulkLoop]
  | cons r rest ih =>
    simp [bulkLoop, bulkProcessOne, ih]
    omega

/-- C4 counterexample: with no Twilio client configured, a bulk-send is
started anyway — the campaign document is inserted with status `sending`,
the recipient is processed and counted as failed, the campaign completes
and the endpoint reports success — contradicting "the batch is not
started (no campaign record created and no recipients processed)". -/
theorem not_configured_bulk_counterexample :
    (sendBulkMessages "c1" 0 "hello"
        [("+15551230000",
          CallOutcome.ofAdapter
            (sendTwilioMessage false ⟨80, []⟩ "+15550000000" 0
              (ProviderCall.ok "SM1" "queued")).result)]).initial.status = "sending" ∧
    (sendBulkMessages "c1" 0 "hello"
        [("+15551230000",
          CallOutcome.ofAdapter
            (sendTwilioMessage false ⟨80, []⟩ "+15550000000" 0
              (ProviderCall.ok "SM1" "queued")).result)]).final.failedSends = 1 ∧
    (sendBulkMessages "c1" 0 "hello"
        [("+15551230000",
          CallOutcome.ofAdapter
            (sendTwilioMessage false ⟨80, []⟩ "+15550000000" 0
              (ProviderCall.ok "SM1" "queued")).result)]).final.status = "completed" ∧
    (sendBulkMessages "c1" 0 "hello"
        [("+15551230000",
          CallOutcome.ofAdapter
            (sendTwilioMessage false ⟨80, []⟩ "+15550000000" 0
              (ProviderCall.ok "SM1" "queued")).result)]).response.success = true :=
  ⟨rfl, rfl, rfl, rfl⟩

/-- C4 (amended): with no Twilio client configured, `send_twilio_message`
raises a configuration error before any dispatch, distinct from every
provider-reported failure dict; in a bulk-send, however, this error is
caught per recipient by the loop, so the campaign document is still
created, every recipient is processed and counted as failed, no Message
document is inserted, and the campaign completes with status `completed`
and a success response. -/
theorem not_configured_bulk_behavior (st : RateLimiterState) (sender : String) (now : Nat)
    (pc : ProviderCall) (cid : String) (body : String) (recipients : List String) :
    (sendTwilioMessage false st sender now pc).result = AdapterResult.notConfigured ∧
    (sendTwilioMessage false st sender now pc).limiter = st ∧
    (∀ d : SendDict, AdapterResult.notConfigured ≠ AdapterResult.ok d) ∧
    (sendBulkMessages cid now body (recipients.map (fun r =>
        (r, CallOutcome.ofAdapter (sendTwilioMessage false st r now pc).result)))).initial.status
      = "sending" ∧
    (sendBulkMessages cid now body (recipients.map (fun r =>
        (r, CallOutcome.ofAdapter (sendTwilioMessage false st r now pc).result)))).initial.totalRecipients
      = recipients.length ∧
    (sendBulkMessages cid now body (recipients.map (fun r =>
        (r, CallOutcome.ofAdapter (sendTwilioMessage false st r now pc).result)))).messages = [] ∧
    (sendBulkMessages cid now body (recipients.map (fun r =>
        (r, CallOutcome.ofAdapter (sendTwilioMessage false st r now pc).result)))).final.successfulSends
      = 0 ∧
    (sendBulkMessages cid now body (recipients.map (fun r =>
        (r, CallOutcome.ofAdapter (sendTwilioMessage false st r now pc).result)))).final.failedSends
      = recipients.length ∧
    (sendBulkMessages cid now body (recipients.map (fun r =>
        (r, CallOutcome.ofAdapter (sendTwilioMessage false st r now pc).result)))).final.status
      = "completed" ∧
    (sendBulkMessages cid now body (recipients.map (fun r =>
        (r, CallOutcome.ofAdapter (sendTwilioMessage false st r now pc).result)))).response.success
      = true := by
  have hout : ∀ r : String,
      CallOutcome.ofAdapter (sendTwilioMessage false st r now pc).result =
        CallOutcome.raised "Twilio not configured. Please add credentials in settings." := by
    intro r
    rfl
  have hitems : (recipients.map (fun r =>
      (r, CallOutcome.ofAdapter (sendTwilioMessage false st r now pc).result))) =
      recipients.map (fun r =>
        (r, CallOutcome.raised "Twilio not configured. Please add credentials in settings.")) := by
    apply List.map_congr_left
    intro r _
    rw [hout r]
  have hloop := bulkLoop_all_raised cid now body
    "Twilio not configured. Please add credentials in settings." recipients
  refine ⟨rfl, rfl, fun d h => AdapterResult.noConfusion h, rfl, ?_, ?_, ?_, ?_, rfl, rfl⟩
  · show (recipients.map (fun r =>
        (r, CallOutcome.ofAdapter (sendTwilioMessage false st r now pc).result))).length
        = recipients.length
    rw [List.length_map]
  · show (bulkLoop cid now body _).2.2 = []
    rw [hitems, hloop]
  · show (bulkLoop cid now body _).1 = 0
    rw [hitems, hloop]
  · show (bulkLoop cid now body _).2.1 = recipients.length
    rw [hitems, hloop]

/-- C6 counterexample: on a store holding one message with status `read`,
the spec formula (delivered + read) / total × 100 gives 100 — and the
per-campaign endpoint reports 100 — but the dashboard endpoint reports 0,
because it counts only status `delivered`. -/
theorem dashboard_rate_counterexample :
    dashboardDeliveryRate [MsgDoc.mk "read" (some "c")] = 0 ∧
    specDeliveryRate (countWithStatus [MsgDoc.mk "read" (some "c")] "delivered")
      (countWithStatus [MsgDoc.mk "read" (some "c")] "read")
      [MsgDoc.mk "read" (some "c")].length = 100 ∧
    campaignDeliveryRate [MsgDoc.mk "read" (some "c")] "c" = 100 := by
  have hne : ¬("read" = "delivered") := by decide
  refine ⟨?_, ?_, ?_⟩
  · norm_num [dashboardDeliveryRate, countWithStatus, hne]
  · norm_num [specDeliveryRate, countWithStatus, hne]
  · norm_num [campaignDeliveryRate, countWithStatus, hne]

/-- C6 (amended): the per-campaign status endpoint computes the spec's
delivery-rate formula (delivered + read) / total × 100 over the campaign's
messages, zero when there are none; the dashboard endpoint computes the
same formula with the `read` count replaced by zero (it counts only
status `delivered`), zero when there are no messages. -/
theorem delivery_rate_formulas (msgs : List MsgDoc) (cid : String) :
    campaignDeliveryRate msgs cid =
      specDeliveryRate
        (countWithStatus (msgs.filter (fun m => m.campaignId = some cid)) "delivered")
        (countWithStatus (msgs.filter (fun m => m.campaignId = some cid)) "read")
        (msgs.filter (fun m => m.campaignId = some cid)).length ∧
    dashboardDeliveryRate msgs =
      specDeliveryRate (countWithStatus msgs "delivered") 0 msgs.length ∧
    campaignDeliveryRate [] cid = 0 ∧
    dashboardDeliveryRate [] = 0 := by
  refine ⟨?_, ?_, rfl, rfl⟩
  · rcases Nat.eq_zero_or_pos (msgs.filter (fun m => m.campaignId = some cid)).length with h | h
    · simp [campaignDeliveryRate, specDeliveryRate, h]
    · have hne : (msgs.filter (fun m => m.campaignId = some cid)).length ≠ 0 := by omega
      simp only [campaignDeliveryRate, specDeliveryRate, if_pos h, if_neg hne]
      push_cast
      ring
  · rcases Nat.eq_zero_or_pos msgs.length with h | h
    · simp [dashboardDeliveryRate, specDeliveryRate, h]
    · have hne : msgs.length ≠ 0 := by omega
      simp only [dashboardDeliveryRate, specDeliveryRate, if_pos h, if_neg hne]
      push_cast
      ring

/-- C8: `check_rate_limit` never raises (its fallible-read model always
returns the total function's value), and when it rejects, the adapter
sleeps 500ms and then dispatches anyway — indeed, once configured, the
dispatch outcome never depends on the admission decision. -/
theorem admit_never_raises_and_backoff (st : RateLimiterState) (phone : String) (now : Nat) :
    checkRateLimitE st phone now = some (checkRateLimit st phone now) ∧
    (∀ pc : ProviderCall,
       (checkRateLimit st phone now).2 = false →
       (sendTwilioMessage true st phone now pc).backoffMs = 500 ∧
       (sendTwilioMessage true st phone now pc).result =
         AdapterResult.ok (normalizeResult pc)) ∧
    (∀ pc : ProviderCall,
       (sendTwilioMessage true st phone now pc).result =
         AdapterResult.ok (normalizeResult pc)) := by
  refine ⟨checkRateLimitE_eq st phone now, ?_, fun pc => rfl⟩
  intro pc hrej
  constructor
  · show (if (checkRateLimit st phone now).2 then 0 else 500) = 500
    rw [hrej]
    rfl
  · rfl

/-- Witness for C8: a concrete rejecting state (cap 0) still yields a
dispatched result with a 500ms back-off. -/
theorem admit_never_raises_and_backoff_witness :
    (checkRateLimit ⟨0, []⟩ "X" 0).2 = false ∧
    (sendTwilioMessage true ⟨0, []⟩ "X" 0 (ProviderCall.ok "SM" "queued")).backoffMs = 500 ∧
    (sendTwilioMessage true ⟨0, []⟩ "X" 0 (ProviderCall.ok "SM" "queued")).result =
      AdapterResult.ok (normalizeResult (ProviderCall.ok "SM" "queued")) :=
  ⟨rfl,
   ((admit_never_raises_and_backoff ⟨0, []⟩ "X" 0).2.1 (ProviderCall.ok "SM" "queued") rfl).1,
   ((admit_never_raises_and_backoff ⟨0, []⟩ "X" 0).2.1 (ProviderCall.ok "SM" "queued") rfl).2⟩

theorem updateOne_no_match (f : StoredMessage → StoredMessage) (sid : Option String)
    (db : List StoredMessage) (h : ∀ m ∈ db, m.providerMessageId ≠ sid) :
    updateOne f sid db = db := by
  induction db with
  | nil => rfl
  | cons m rest ih =>
    rw [updateOne, if_neg (h m (by simp))]
    rw [ih (fun m' hm' => h m' (by simp [hm']))]

theorem updateOne_first_match (f : StoredMessage → StoredMessage) (sid : Option String)
    (pre rest : List StoredMessage) (m : StoredMessage)
    (hpre : ∀ m' ∈ pre, m'.providerMessageId ≠ sid)
    (hm : m.providerMessageId = sid) :
    updateOne f sid (pre ++ m :: rest) = pre ++ f m :: rest := by
  induction pre with
  | nil => simp [updateOne, hm]
  | cons q qre ih =>
    rw [List.cons_append, updateOne, if_neg (hpre q (by simp))]
    rw [List.cons_append, ih (fun m' hm' => hpre m' (by simp [hm']))]

/-- C9: the webhook handler is total and always acknowledges with HTTP
200: a malformed form is caught and answered with the error detail in the
body only; an update whose message id matches no stored Message leaves the
store unchanged; when a message matches, status `delivered` sets its
delivered timestamp, `read` sets its read timestamp, and `failed` or
`undelivered` copies the payload's error code. -/
theorem webhook_total_and_updates (now : Nat) :
    (∀ (db : List StoredMessage) (form : Except String WebhookPayload),
       (twilioStatusWebhook db form now).2.httpStatus = 200) ∧
    (∀ (db : List StoredMessage) (e : String),
       twilioStatusWebhook db (Except.error e) now = (db, ⟨200, some e⟩)) ∧
    (∀ (db : List StoredMessage) (p : WebhookPayload),
       (∀ m ∈ db, m.providerMessageId ≠ p.messageSid) →
       (twilioStatusWebhook db (Except.ok p) now).1 = db) ∧
    (∀ (pre rest : List StoredMessage) (m : StoredMessage) (p : WebhookPayload),
       (∀ m' ∈ pre, m'.providerMessageId ≠ p.messageSid) →
       m.providerMessageId = p.messageSid →
       (twilioStatusWebhook (pre ++ m :: rest) (Except.ok p) now).1 =
         pre ++ applyUpdateFields now p m :: rest) ∧
    (∀ (p : WebhookPayload) (m : StoredMessage),
       (p.messageStatus = some "delivered" →
         (applyUpdateFields now p m).deliveredAt = some now) ∧
       (p.messageStatus = some "read" → (applyUpdateFields now p m).readAt = some now) ∧
       ((p.messageStatus = some "failed" ∨ p.messageStatus = some "undelivered") →
         (applyUpdateFields now p m).errorCode = p.errorCode)) := by
  refine ⟨?_, fun db e => rfl, ?_, ?_, ?_⟩
  · intro db form
    cases form <;> rfl
  · intro db p h
    show updateOne (applyUpdateFields now p) p.messageSid db = db
    exact updateOne_no_match _ _ db h
  · intro pre rest m p hpre hm
    show updateOne (applyUpdateFields now p) p.messageSid (pre ++ m :: rest) = _
    exact updateOne_first_match _ _ pre rest m hpre hm
  · intro p m
    refine ⟨?_, ?_, ?_⟩
    · intro h
      simp [applyUpdateFields, h]
    · intro h
      simp [applyUpdateFields, h]
    · intro h
      rcases h with h | h <;> simp [applyUpdateFields, h]

/-- Witness for C9: a matched `delivered` update stamps the record, an
unmatched id leaves the store untouched, a malformed form yields a 200
with body-only error detail. -/
theorem webhook_total_and_updates_witness :
    (twilioStatusWebhook [StoredMessage.mk (some "A") (some "sent") none none none]
        (Except.ok ⟨some "B", some "delivered", none⟩) 7).1 =
      [StoredMessage.mk (some "A") (some "sent") none none none] ∧
    (twilioStatusWebhook [StoredMessage.mk (some "A") (some "sent") none none none]
        (Except.error "boom") 7) =
      ([StoredMessage.mk (some "A") (some "sent") none none none], ⟨200, some "boom"⟩) ∧
    (twilioStatusWebhook [StoredMessage.mk (some "A") (some "sent") none none none]
        (Except.ok ⟨some "A", some "delivered", none⟩) 7).1 =
      [applyUpdateFields 7 ⟨some "A", some "delivered", none⟩
        (StoredMessage.mk (some "A") (some "sent") none none none)] ∧
    (applyUpdateFields 7 ⟨some "A", some "delivered", none⟩
        (StoredMessage.mk (some "A") (some "sent") none none none)).deliveredAt = some 7 :=
  ⟨(webhook_total_and_updates 7).2.2.1
      [StoredMessage.mk (some "A") (some "sent") none none none]
      ⟨some "B", some "delivered", none⟩ (by decide),
   (webhook_total_and_updates 7).2.1
      [StoredMessage.mk (some "A") (some "sent") none none none] "boom",
   (webhook_total_and_updates 7).2.2.2.1 [] []
      (StoredMessage.mk (some "A") (some "sent") none none none)
      ⟨some "A", some "delivered", none⟩ (by simp) rfl,
   ((webhook_total_and_updates 7).2.2.2.2 ⟨some "A", some "delivered", none⟩
      (StoredMessage.mk (some "A") (some "sent") none none none)).1 rfl⟩

/-- C10: for a payload whose MessageSid matches a stored Message, the
handler writes the payload's MessageStatus into the record's status field
verbatim, with no validation against the enumerated message-status set —
an arbitrary (or absent) status value is stored as-is. -/
theorem webhook_status_written_verbatim (p : WebhookPayload) (m : StoredMessage)
    (rest : List StoredMessage) (now : Nat)
    (hmatch : m.providerMessageId = p.messageSid) :
    (applyUpdateFields now p m).status = p.messageStatus ∧
    (twilioStatusWebhook (m :: rest) (Except.ok p) now).1 =
      applyUpdateFields now p m :: rest := by
  constructor
  · rw [applyUpdateFields]
    split
    · rfl
    · split
      · rfl
      · split <;> rfl
  · show updateOne (applyUpdateFields now p) p.messageSid (m :: rest) = _
    rw [updateOne, if_pos hmatch]

/-- Witness for C10: the junk status "bogus", absent from the enumerated
`MessageStatus` values, is stored verbatim on the matched record. -/
theorem webhook_status_written_verbatim_witness :
    "bogus" ∉ messageStatusValues ∧
    (applyUpdateFields 3 ⟨some "SM9", some "bogus", none⟩
        (StoredMessage.mk (some "SM9") (some "sent") none none none)).status = some "bogus" ∧
    (twilioStatusWebhook [StoredMessage.mk (some "SM9") (some "sent") none none none]
        (Except.ok ⟨some "SM9", some "bogus", none⟩) 3).1 =
      [applyUpdateFields 3 ⟨some "SM9", some "bogus", none⟩
        (StoredMessage.mk (some "SM9") (some "sent") none none none)] :=
  ⟨by decide,
   (webhook_status_written_verbatim ⟨some "SM9", some "bogus", none⟩
      (StoredMessage.mk (some "SM9") (some "sent") none none none) [] 3 rfl).1,
   (webhook_status_written_verbatim ⟨some "SM9", some "bogus", none⟩
      (StoredMessage.mk (some "SM9") (some "sent") none none none) [] 3 rfl).2⟩
